import Mathlib

/-!
Verification of the article-acquisition pipeline of the News Bias AI app
(src/app.py): article selection (`get_recent_articles`), content fetching
(`fetch_full_article`) and the three analysis generators
(`generate_article_summary`, `analyze_bias`, `generate_devils_advocate`).

Python strings are modelled as Lean `String`, with the handful of string
operations the code uses (`str.lower`, `in` substring test, `str.strip`,
`' '.join`, slicing `[:n]`) re-defined over the character list so that every
definition evaluates by kernel reduction.  Network responses, parsed JSON
bodies and HTML pages are explicit inputs, so that each function of the
source becomes a total Lean function of its upstream behaviour.
-/

/-! ## Python string primitives -/

/-- Python `str.lower()`: lower-case every character (ASCII, as in the
keyword matching the code performs). -/
def lower (s : String) : String := ⟨s.data.map Char.toLower⟩

/-- Python substring test `needle in hay`. -/
def containsSub (hay needle : String) : Bool := decide (needle.data <:+: hay.data)

/-- Python `str.strip()`: drop leading and trailing whitespace. -/
def pyStrip (s : String) : String :=
  ⟨((s.data.dropWhile (fun c => c.isWhitespace)).reverse.dropWhile
      (fun c => c.isWhitespace)).reverse⟩

/-- Python `' '.join(ts)`. -/
def joinSp (ts : List String) : String :=
  ⟨((List.intersperse " " ts).map String.data).flatten⟩

/-- Python slicing `s[:n]` (by code points). -/
def pySlice (n : Nat) (s : String) : String := ⟨s.data.take n⟩

/-! ## Data model: articles and the configured sources (src/app.py lines 38-43) -/

/-- One raw result from the NewsAPI `articles` array, restricted to the
fields the program reads.  `publishedAt` stands for the remaining payload so
that Lean record equality models Python dict equality (used by the
`article not in political_articles` membership test). -/
structure Article where
  title : String
  description : String
  url : String
  publishedAt : String
deriving DecidableEq

/-- The `NEWS_SOURCES` table mapping display names to domains. -/
def NEWS_SOURCES : List (String × String) :=
  [("CNN", "cnn.com"), ("Fox News", "foxnews.com"),
   ("Politico", "politico.com"), ("NBC News", "nbcnews.com")]

/-! ## Political classification (src/app.py lines 211-219) -/

/-- The fixed `political_keywords` list. -/
def political_keywords : List String :=
  ["politics", "government", "congress", "senate", "white house", "biden",
   "trump", "election", "democrat", "republican", "campaign", "vote",
   "legislation", "policy"]

/-- The classification test of the selection loop:
`any(keyword in title or keyword in description for keyword in political_keywords)`
after `title`/`description` have been lower-cased. -/
def isPolitical (a : Article) : Bool :=
  political_keywords.any fun keyword =>
    containsSub (lower a.title) keyword || containsSub (lower a.description) keyword

/-! ## The selection loops (src/app.py lines 215-236) -/

/-- First loop: append each political article in order, breaking as soon as
five have been collected. -/
def political_pass : List Article → List Article → List Article
  | [], acc => acc
  | a :: rest, acc =>
    if isPolitical a then
      if 5 ≤ (acc ++ [a]).length then acc ++ [a]
      else political_pass rest (acc ++ [a])
    else political_pass rest acc

/-- Second loop: append each article that is not already a member of the
collected list (Python `article not in political_articles`, dict equality),
breaking as soon as five have been collected. -/
def fill_pass : List Article → List Article → List Article
  | [], acc => acc
  | a :: rest, acc =>
    if a ∈ acc then fill_pass rest acc
    else if 5 ≤ (acc ++ [a]).length then acc ++ [a]
    else fill_pass rest (acc ++ [a])

/-- The batch built from the raw `articles` array: the political pass, the
fill pass when fewer than five were collected, then `[:5]`. -/
def select_articles (articles : List Article) : List Article :=
  let political_articles := political_pass articles []
  let political_articles :=
    if political_articles.length < 5 then fill_pass articles political_articles
    else political_articles
  political_articles.take 5

/-! ## The upstream search API and `get_recent_articles` (src/app.py lines 142-245) -/

/-- A decoded NewsAPI JSON body, restricted to the keys the program reads.
A missing or null `articles` key is collapsed to the empty list, exactly as
Python truthiness (`not articles_data.get('articles')`) treats it. -/
structure ApiData where
  articles : List Article
  status : Option String
  message : Option String
  code : Option String
deriving DecidableEq

/-- Outcome of `response.json()`: a decoding error (`ValueError`) or a body. -/
inductive JsonBody where
  | invalid
  | valid (data : ApiData)
deriving DecidableEq

/-- Outcome of one `requests.get` call: a `RequestException` (network error or
timeout), some other exception, or a response with a status code and body. -/
inductive HttpResult where
  | exn
  | otherExn
  | resp (status_code : Nat) (body : JsonBody)
deriving DecidableEq

/-- The error paths of `get_recent_articles`, each one an `st.error` call
immediately followed by `return []`. -/
inductive ErrKind where
  | invalidSource (msg : String)
  | apiError (msg : String)
  | noArticles (msg : String)
  | networkError
  | parseError
  | otherError
deriving DecidableEq

/-- The observable outcome of `get_recent_articles`: the error displayed (if
any) and the returned list. -/
structure SelectResult where
  error : Option ErrKind
  batch : List Article
deriving DecidableEq

/-- The `NewsAPI Error: ...` message built at src/app.py lines 196-198. -/
def newsApiErrMsg (d : ApiData) : String :=
  "NewsAPI Error: " ++ d.message.getD "Unknown error" ++
    (match d.code with
     | some c => "\nError Code: " ++ c
     | none => "")

/-- The `No articles found from ...` message built at src/app.py lines 203-207. -/
def noArticlesMsg (source : String) (d : ApiData) : String :=
  "No articles found from " ++ source ++
    (match d.status with
     | some st => "\nAPI Status: " ++ st
     | none => "") ++
    (match d.message with
     | some m => "\nAPI Message: " ++ m
     | none => "")

/-- The tail of `get_recent_articles` run on the response that survives the
broadened-retry step: the status check (line 195), the empty-`articles` check
(line 202), the two selection loops and the final checks (lines 211-236). -/
def afterResolve (source : String) (status_code : Nat) (d : ApiData) : SelectResult :=
  if status_code ≠ 200 then ⟨some (.apiError (newsApiErrMsg d)), []⟩
  else if d.articles.isEmpty then ⟨some (.noArticles (noArticlesMsg source d)), []⟩
  else
    let political_articles := political_pass d.articles []
    let political_articles :=
      if political_articles.length < 5 then fill_pass d.articles political_articles
      else political_articles
    if political_articles.isEmpty then
      ⟨some (.noArticles ("No articles found from " ++ source)), []⟩
    else ⟨none, political_articles.take 5⟩

/-- Embedding of `get_recent_articles`.  `first` is the outcome of the
domain-scoped request; `retry` is the outcome of the broadened
(`q=site:domain`) request, which the code issues only when the first decoded
body has a falsy `articles` value (src/app.py lines 183-193).  Every
exception raised inside the `try` block is caught (lines 237-245), so the
embedding is a total function. -/
def get_recent_articles (source : String) (first retry : HttpResult) : SelectResult :=
  if ¬ (NEWS_SOURCES.map Prod.fst).contains source then
    ⟨some (.invalidSource ("Invalid news source: " ++ source)), []⟩
  else
    match first with
    | .exn => ⟨some .networkError, []⟩
    | .otherExn => ⟨some .otherError, []⟩
    | .resp _ .invalid => ⟨some .parseError, []⟩
    | .resp status_code (.valid d) =>
      if d.articles.isEmpty then
        match retry with
        | .exn => ⟨some .networkError, []⟩
        | .otherExn => ⟨some .otherError, []⟩
        | .resp _ .invalid => ⟨some .parseError, []⟩
        | .resp status_code2 (.valid d2) => afterResolve source status_code2 d2
      else afterResolve source status_code d

/-! ## HTML pages and `fetch_full_article` (src/app.py lines 247-268) -/

/-- A parsed HTML node: a text node or an element with a tag and children. -/
inductive Html where
  | text (s : String)
  | elem (tag : String) (children : List Html)

/-- The tags removed before text extraction (src/app.py line 255). -/
def bannedTags : List String := ["script", "style", "nav", "footer", "header"]

mutual
/-- Effect of `element.decompose()` applied to every element whose tag is in
`bannedTags`: the whole subtree rooted at such an element is removed. -/
def decomposeBanned : Html → List Html
  | .text s => [.text s]
  | .elem t cs => if t ∈ bannedTags then [] else [.elem t (decomposeBannedL cs)]
def decomposeBannedL : List Html → List Html
  | [] => []
  | c :: cs => decomposeBanned c ++ decomposeBannedL cs
end

mutual
/-- BeautifulSoup `find_all('p')`: every `p` element of the tree in document
(pre-)order, including nested matches. -/
def findAllP : Html → List Html
  | .text _ => []
  | .elem t cs => (if t = "p" then [Html.elem t cs] else []) ++ findAllPL cs
def findAllPL : List Html → List Html
  | [] => []
  | c :: cs => findAllP c ++ findAllPL cs
end

mutual
/-- BeautifulSoup `get_text()`: concatenation of every descendant text node. -/
def getText : Html → String
  | .text s => s
  | .elem _ cs => getTextL cs
def getTextL : List Html → String
  | [] => ""
  | c :: cs => ⟨(getText c).data ++ (getTextL cs).data⟩
end

/-- Outcome of the `requests.get(url, timeout=10)` call inside
`fetch_full_article`: an exception (timeout, network failure, or any parse
failure inside the `try`), or a response carrying a status code and the
parsed page. -/
inductive PageResult where
  | exn
  | resp (status_code : Nat) (page : List Html)

/-- The paragraph filter of the extraction loop: strip the text of one
paragraph element and keep it when non-empty and longer than 50 characters
(src/app.py lines 260-263). -/
def keepText (p : Html) : Option String :=
  let text := pyStrip (getText p)
  if text ≠ "" ∧ 50 < text.length then some text else none

/-- Embedding of `fetch_full_article`: on status 200, remove the banned
elements, collect the stripped text of every `p` element whose text is
non-empty and longer than 50 characters, and join with single spaces; every
other path falls through to `return None`. -/
def fetch_full_article (r : PageResult) : Option String :=
  match r with
  | .exn => none
  | .resp status_code page =>
    if status_code = 200 then
      let soup := decomposeBannedL page
      let article_content := (findAllPL soup).filterMap keepText
      some (joinSp article_content)
    else none

/-! ## The analysis dispatcher (src/app.py lines 270-334) -/

/-- Outcome of one `model.generate_content(prompt)` call: an exception, or a
response whose `.text` is the given string. -/
inductive GenOutcome where
  | raises
  | ok (response_text : String)

/-- Leading text of the summary prompt f-string (src/app.py lines 272-281). -/
def summaryPre : String :=
  "\n    Summarize this article in 4-5 bullet points:\n    1. Main topic\n    2. Key facts\n    3. Main arguments\n    4. Key quotes\n    5. Impact\n    \n    Article content:\n    "

/-- Trailing text of the summary prompt f-string (src/app.py lines 281-284). -/
def summaryPost : String :=
  "\n    \n    Keep each point under 10 words. Be direct and clear.\n    "

/-- The summary prompt: the article content is spliced in as
`article_content[:8000]`. -/
def summaryPrompt (article_content : String) : String :=
  summaryPre ++ pySlice 8000 article_content ++ summaryPost

/-- Leading text of the bias prompt before the source name (src/app.py line 295). -/
def biasPre1 : String := "\n    Analyze bias in this "

/-- Text of the bias prompt between the source name and the article content
(src/app.py lines 295-302). -/
def biasPre2 : String :=
  " article. For each aspect, provide specific examples:\n    1. Word choice (loaded terms)\n    2. Fact selection (inclusions/exclusions)\n    3. Tone (how presented)\n    4. Sources (who\x27s quoted)\n    5. Conclusions (what\x27s implied)\n    \n    Article content:\n    "

/-- Trailing text of the bias prompt (src/app.py lines 303-306). -/
def biasPost : String :=
  "\n    \n    Keep each point under 8 words. Include specific examples.\n    "

/-- The bias prompt: source name and `article_content[:8000]` spliced in. -/
def biasPrompt (article_content source : String) : String :=
  biasPre1 ++ source ++ biasPre2 ++ pySlice 8000 article_content ++ biasPost

/-- Leading text of the devils-advocate prompt before the source name
(src/app.py line 317). -/
def devilsPre1 : String := "\n    Critically analyze this "

/-- Text of the devils-advocate prompt between the source name and the
article content (src/app.py lines 317-324). -/
def devilsPre2 : String :=
  " article:\n    1. Missing context\n    2. Opposing views\n    3. Questionable assumptions\n    4. Alternative interpretations\n    5. Unanswered questions\n    \n    Article content:\n    "

/-- Trailing text of the devils-advocate prompt (src/app.py lines 325-328). -/
def devilsPost : String :=
  "\n    \n    Keep each point under 8 words. Focus on gaps and alternatives.\n    "

/-- The devils-advocate prompt: source name and `article_content[:8000]`
spliced in. -/
def devilsPrompt (article_content source : String) : String :=
  devilsPre1 ++ source ++ devilsPre2 ++ pySlice 8000 article_content ++ devilsPost

/-- Embedding of `generate_article_summary`: the model is an arbitrary
function from prompts to call outcomes; an exception degrades to the fixed
fallback string. -/
def generate_article_summary (model : String → GenOutcome) (article_content : String) : String :=
  match model (summaryPrompt article_content) with
  | .ok t => pyStrip t
  | .raises => "Could not generate summary due to an error."

/-- Embedding of `analyze_bias`. -/
def analyze_bias (model : String → GenOutcome) (article_content source : String) : String :=
  match model (biasPrompt article_content source) with
  | .ok t => pyStrip t
  | .raises => "Could not analyze bias due to an error."

/-- Embedding of `generate_devils_advocate`. -/
def generate_devils_advocate (model : String → GenOutcome) (article_content source : String) : String :=
  match model (devilsPrompt article_content source) with
  | .ok t => pyStrip t
  | .raises => "Could not generate devil\x27s advocate analysis due to an error."

/-! ## Spec-side definitions used by individual claims -/

/-- Claim-side paragraph extraction, following the spec text: the trimmed
texts of the paragraph elements surviving the tag removal, kept when the
trimmed length exceeds 50 characters, in document order. -/
def paragraphTexts (page : List Html) : List String :=
  ((findAllPL (decomposeBannedL page)).map fun p => pyStrip (getText p)).filter
    fun t => 50 < t.length

/-! ## Helper lemmas about the selection loops -/

/-- The political pass collects exactly the first political candidates, in
order, up to five of them. -/
theorem political_pass_eq (l : List Article) (acc : List Article) (h : acc.length < 5) :
    political_pass l acc = acc ++ (l.filter isPolitical).take (5 - acc.length) := by
  induction l generalizing acc with
  | nil => simp [political_pass]
  | cons a rest ih =>
    by_cases hp : isPolitical a = true
    · rw [political_pass, if_pos hp]
      by_cases hb : 5 ≤ (acc ++ [a]).length
      · rw [if_pos hb]
        have h4 : acc.length = 4 := by
          simp only [List.length_append, List.length_cons, List.length_nil] at hb
          omega
        have h1 : 5 - acc.length = 1 := by omega
        rw [List.filter_cons_of_pos hp, h1]
        simp
      · rw [if_neg hb]
        have h' : (acc ++ [a]).length < 5 := by
          simp only [List.length_append, List.length_cons, List.length_nil] at hb ⊢
          omega
        rw [ih _ h', List.filter_cons_of_pos hp]
        have h2 : 5 - acc.length = (5 - (acc ++ [a]).length) + 1 := by
          simp only [List.length_append, List.length_cons, List.length_nil]
          omega
        rw [h2, List.take_succ_cons, List.append_assoc]
        rfl
    · rw [political_pass, if_neg hp, ih _ h, List.filter_cons_of_neg (by simpa using hp)]

/-- The fill pass extends the accumulator with a subsequence of the candidate
list, none of whose members were already collected. -/
theorem fill_pass_spec (l : List Article) : ∀ acc : List Article,
    ∃ extra, fill_pass l acc = acc ++ extra ∧ extra.Sublist l ∧ ∀ x ∈ extra, x ∉ acc := by
  induction l with
  | nil =>
    intro acc
    exact ⟨[], by simp [fill_pass], List.nil_sublist _, by simp⟩
  | cons a rest ih =>
    intro acc
    by_cases hm : a ∈ acc
    · obtain ⟨e, h1, h2, h3⟩ := ih acc
      exact ⟨e, by rw [fill_pass, if_pos hm]; exact h1, h2.cons a, h3⟩
    · by_cases hb : 5 ≤ (acc ++ [a]).length
      · refine ⟨[a], by rw [fill_pass, if_neg hm, if_pos hb], (List.nil_sublist rest).cons₂ a, ?_⟩
        intro x hx
        simp only [List.mem_singleton] at hx
        subst hx
        exact hm
      · obtain ⟨e, h1, h2, h3⟩ := ih (acc ++ [a])
        refine ⟨a :: e, ?_, h2.cons₂ a, ?_⟩
        · rw [fill_pass, if_neg hm, if_neg hb, h1, List.append_assoc]
          rfl
        · intro x hx
          rcases List.mem_cons.mp hx with rfl | hxe
          · exact hm
          · intro hxa
            exact h3 x hxe (List.mem_append_left _ hxa)

/-- Decomposition of the selected batch: the first five political candidates
followed by fill items, truncated to five; the fill items are a subsequence
of the candidates, none political, none already collected. -/
theorem select_articles_decomp (l : List Article) :
    ∃ extra, select_articles l = ((l.filter isPolitical).take 5 ++ extra).take 5 ∧
      extra.Sublist l ∧ (∀ a ∈ extra, isPolitical a = false) ∧
      (∀ a ∈ extra, a ∉ (l.filter isPolitical).take 5) := by
  have hpol : political_pass l [] = (l.filter isPolitical).take 5 := by
    rw [political_pass_eq l [] (by simp)]
    simp
  by_cases hlt : (political_pass l []).length < 5
  · obtain ⟨e, h1, h2, h3⟩ := fill_pass_spec l (political_pass l [])
    refine ⟨e, ?_, h2, ?_, ?_⟩
    · simp only [select_articles, if_pos hlt]
      rw [h1, hpol]
    · intro a ha
      cases hq : isPolitical a
      · rfl
      · exfalso
        have hal : a ∈ l := h2.subset ha
        have haf : a ∈ l.filter isPolitical := List.mem_filter.mpr ⟨hal, hq⟩
        have hfl : (l.filter isPolitical).length < 5 := by
          rw [hpol, List.length_take] at hlt
          omega
        have htk : (l.filter isPolitical).take 5 = l.filter isPolitical :=
          List.take_of_length_le (by omega)
        exact h3 a ha (by rw [hpol, htk]; exact haf)
    · intro a ha
      have := h3 a ha
      rwa [hpol] at this
  · refine ⟨[], ?_, List.nil_sublist _, by simp, by simp⟩
    simp only [select_articles, if_neg hlt]
    rw [hpol, List.append_nil]

/-- Flattened form of the decomposition: the batch is the five-truncated
political list followed by at most the remaining quota of fill items. -/
theorem select_articles_eq_append (l : List Article) :
    ∃ e, select_articles l = (l.filter isPolitical).take 5 ++ e ∧
      e.Sublist l ∧ (∀ a ∈ e, isPolitical a = false) ∧
      (∀ a ∈ e, a ∉ (l.filter isPolitical).take 5) := by
  obtain ⟨extra, h1, h2, h3, h4⟩ := select_articles_decomp l
  have hlen : ((l.filter isPolitical).take 5).length ≤ 5 := by
    rw [List.length_take]
    exact Nat.min_le_left _ _
  refine ⟨extra.take (5 - ((l.filter isPolitical).take 5).length), ?_,
    (List.take_sublist _ _).trans h2,
    fun a ha => h3 a ((List.take_sublist _ _).subset ha),
    fun a ha => h4 a ((List.take_sublist _ _).subset ha)⟩
  rw [h1, List.take_append_eq_append_take, List.take_of_length_le hlen]

/-- The batch never exceeds five articles. -/
theorem select_articles_length_le (l : List Article) : (select_articles l).length ≤ 5 := by
  simp only [select_articles]
  rw [List.length_take]
  exact Nat.min_le_left _ _

/-- The political part of the batch is the five-truncated political sublist
of the candidates, and the non-political part is a subsequence of the
non-political candidates; the batch is their concatenation in that order. -/
theorem select_articles_order (l : List Article) :
    (select_articles l).filter isPolitical = (l.filter isPolitical).take 5 ∧
    ((select_articles l).filter (fun a => !(isPolitical a))).Sublist
      (l.filter (fun a => !(isPolitical a))) ∧
    select_articles l =
      (select_articles l).filter isPolitical ++
        (select_articles l).filter (fun a => !(isPolitical a)) := by
  obtain ⟨e, h1, h2, h3, h4⟩ := select_articles_eq_append l
  have hpol5 : ∀ a ∈ (l.filter isPolitical).take 5, isPolitical a = true := fun a ha =>
    List.of_mem_filter ((List.take_sublist _ _).subset ha)
  have hself : ((l.filter isPolitical).take 5).filter isPolitical
      = (l.filter isPolitical).take 5 := List.filter_eq_self.mpr hpol5
  have hnil_e : e.filter isPolitical = [] :=
    List.filter_eq_nil_iff.mpr (fun a ha => by simp [h3 a ha])
  have hfp : (select_articles l).filter isPolitical = (l.filter isPolitical).take 5 := by
    rw [h1, List.filter_append, hself, hnil_e, List.append_nil]
  have hee : e.filter (fun a => !(isPolitical a)) = e :=
    List.filter_eq_self.mpr (fun a ha => by simp [h3 a ha])
  have hnil_t : ((l.filter isPolitical).take 5).filter (fun a => !(isPolitical a)) = [] :=
    List.filter_eq_nil_iff.mpr (fun a ha => by simp [hpol5 a ha])
  have hfn : (select_articles l).filter (fun a => !(isPolitical a)) = e := by
    rw [h1, List.filter_append, hnil_t, hee, List.nil_append]
  refine ⟨hfp, ?_, ?_⟩
  · rw [hfn]
    have := h2.filter (fun a => !(isPolitical a))
    rwa [hee] at this
  · rw [hfp, hfn]
    exact h1

/-- Every article of the batch is one of the raw candidates. -/
theorem select_articles_subset (l : List Article) : ∀ a ∈ select_articles l, a ∈ l := by
  obtain ⟨e, h1, h2, _, _⟩ := select_articles_eq_append l
  rw [h1]
  intro a ha
  rcases List.mem_append.mp ha with h | h
  · exact (List.filter_sublist l).subset ((List.take_sublist _ _).subset h)
  · exact h2.subset h

/-- When the raw candidates are pairwise distinct records, so is the batch. -/
theorem select_articles_nodup_helper (l : List Article) (h : l.Nodup) :
    (select_articles l).Nodup := by
  obtain ⟨e, h1, h2, h3, h4⟩ := select_articles_eq_append l
  rw [h1, List.nodup_append]
  refine ⟨?_, h2.nodup h, fun a ha hae => h4 a hae ha⟩
  exact ((List.take_sublist _ _).trans (List.filter_sublist l)).nodup h

/-- Every run of the post-retry tail either reports an error with an empty
list or succeeds with the selected batch. -/
theorem afterResolve_shape (s : String) (c : Nat) (d : ApiData) :
    (∃ e, afterResolve s c d = ⟨some e, []⟩) ∨
      afterResolve s c d = ⟨none, select_articles d.articles⟩ := by
  simp only [afterResolve, select_articles]
  by_cases h1 : c ≠ 200
  · rw [if_pos h1]
    exact Or.inl ⟨_, rfl⟩
  · rw [if_neg h1]
    by_cases h2 : d.articles.isEmpty = true
    · rw [if_pos h2]
      exact Or.inl ⟨_, rfl⟩
    · rw [if_neg h2]
      by_cases h3 : (if (political_pass d.articles []).length < 5 then
          fill_pass d.articles (political_pass d.articles [])
        else political_pass d.articles []).isEmpty = true
      · rw [if_pos h3]
        exact Or.inl ⟨_, rfl⟩
      · rw [if_neg h3]
        exact Or.inr rfl

/-- Every run of `get_recent_articles` either reports an error with an empty
list or succeeds with the batch selected from some decoded body. -/
theorem get_recent_articles_shape (s : String) (f r : HttpResult) :
    (∃ e, get_recent_articles s f r = ⟨some e, []⟩) ∨
      ∃ d : ApiData, get_recent_articles s f r = ⟨none, select_articles d.articles⟩ := by
  unfold get_recent_articles
  by_cases hs : ¬ (NEWS_SOURCES.map Prod.fst).contains s = true
  · rw [if_pos hs]
    exact Or.inl ⟨_, rfl⟩
  · rw [if_neg hs]
    cases f with
    | exn => exact Or.inl ⟨_, rfl⟩
    | otherExn => exact Or.inl ⟨_, rfl⟩
    | resp c b =>
      cases b with
      | invalid => exact Or.inl ⟨_, rfl⟩
      | valid d =>
        simp only
        by_cases hemp : d.articles.isEmpty = true
        · rw [if_pos hemp]
          cases r with
          | exn => exact Or.inl ⟨_, rfl⟩
          | otherExn => exact Or.inl ⟨_, rfl⟩
          | resp c2 b2 =>
            cases b2 with
            | invalid => exact Or.inl ⟨_, rfl⟩
            | valid d2 =>
              rcases afterResolve_shape s c2 d2 with ⟨e, he⟩ | hok
              · exact Or.inl ⟨e, he⟩
              · exact Or.inr ⟨d2, hok⟩
        · rw [if_neg hemp]
          rcases afterResolve_shape s c d with ⟨e, he⟩ | hok
          · exact Or.inl ⟨e, he⟩
          · exact Or.inr ⟨d, hok⟩

/-! ## Helper lemmas about the content fetcher -/

/-- The non-emptiness conjunct of the paragraph filter is redundant: a text
longer than 50 characters is not empty. -/
theorem keepText_eq (p : Html) :
    keepText p = if 50 < (pyStrip (getText p)).length then some (pyStrip (getText p))
      else none := by
  unfold keepText
  by_cases h : 50 < (pyStrip (getText p)).length
  · rw [if_pos h, if_pos ⟨by intro he; rw [he] at h; simp at h, h⟩]
  · rw [if_neg h, if_neg (fun hc => h hc.2)]

/-- Collecting surviving paragraph texts is the map-then-filter extraction
the spec describes. -/
theorem filterMap_keepText (ps : List Html) :
    ps.filterMap keepText =
      ((ps.map fun p => pyStrip (getText p)).filter fun t => 50 < t.length) := by
  induction ps with
  | nil => rfl
  | cons p rest ih =>
    rw [List.filterMap_cons, keepText_eq, List.map_cons, List.filter_cons]
    by_cases h : 50 < (pyStrip (getText p)).length
    · rw [if_pos h, ih]
      simp [h]
    · rw [if_neg h, ih]
      simp [h]

/-! ## Claims -/

/-- C1: for every candidate list, the selected batch has at most 5 articles,
every article classified political precedes every non-political one (the
batch is its political part followed by its non-political part), and within
each of the two groups the original recency order of the candidate list is
preserved (each part is a subsequence of the correspondingly filtered
candidate list); moreover every batch returned at the entry point has at
most 5 articles. -/
theorem claim_C1_batch_spec :
    (∀ l : List Article,
      (select_articles l).length ≤ 5 ∧
      select_articles l =
        (select_articles l).filter isPolitical ++
          (select_articles l).filter (fun a => !(isPolitical a)) ∧
      ((select_articles l).filter isPolitical).Sublist (l.filter isPolitical) ∧
      ((select_articles l).filter (fun a => !(isPolitical a))).Sublist
        (l.filter (fun a => !(isPolitical a)))) ∧
    ∀ (s : String) (f r : HttpResult), (get_recent_articles s f r).batch.length ≤ 5 := by
  constructor
  · intro l
    obtain ⟨hfp, hsub, hsplit⟩ := select_articles_order l
    refine ⟨select_articles_length_le l, hsplit, ?_, hsub⟩
    rw [hfp]
    exact List.take_sublist _ _
  · intro s f r
    rcases get_recent_articles_shape s f r with ⟨e, he⟩ | ⟨d, hd⟩
    · rw [he]
      simp
    · rw [hd]
      exact select_articles_length_le _

/-- C2: an article is classified political exactly when some keyword of the
fixed list occurs as a substring of the lower-cased title or the lower-cased
description (the keywords are lower-case, so the match is case-insensitive);
the classification is a pure function of the record, and a title containing
Biden is classified identically to one containing biden. -/
theorem claim_C2_classification :
    (∀ a : Article, isPolitical a = true ↔
      ∃ k ∈ political_keywords,
        k.data <:+: (lower a.title).data ∨ k.data <:+: (lower a.description).data) ∧
    isPolitical ⟨"Biden to speak", "", "", ""⟩ = true ∧
    isPolitical ⟨"biden to speak", "", "", ""⟩ = true := by
  refine ⟨fun a => ?_, by decide, by decide⟩
  simp only [isPolitical, List.any_eq_true, containsSub, Bool.or_eq_true, decide_eq_true_eq]

/-- An article with empty title and empty URL whose description matches a
political keyword, as the search API could return it. -/
def malformedArticle : Article := ⟨"", "new government policy announced", "", ""⟩

/-- C3 counterexample: a raw result with an empty title and an empty URL is
not discarded; the batch returned for a 200 response containing it includes
it. -/
theorem claim_C3_counterexample :
    get_recent_articles "CNN"
        (.resp 200 (.valid ⟨[malformedArticle], some "ok", none, none⟩)) .exn =
      ⟨none, [malformedArticle]⟩ ∧
    malformedArticle.title = "" ∧ malformedArticle.url = "" := by decide

/-- C3 (amended): every article of the batch is drawn from the raw results,
but no emptiness check on title or URL is applied anywhere, so raw results
with empty title or URL can appear in the batch. -/
theorem claim_C3_amended (l : List Article) (a : Article) (h : a ∈ select_articles l) :
    a ∈ l :=
  select_articles_subset l a h

/-- Witness for the amended C3 theorem at a concrete input. -/
theorem claim_C3_amended_witness : malformedArticle ∈ [malformedArticle] :=
  claim_C3_amended [malformedArticle] malformedArticle (by decide)

/-- A political article used by the C4 artifacts. -/
def cnnArticle : Article := ⟨"Trump holds rally", "", "https://cnn.com/a", "2025-01-01"⟩

/-- C4 counterexample: the search API answers the domain-scoped request with
status 500, yet because that body has no articles the code issues the
broadened retry before checking any status; the retry returns 200 and the
function returns a successful batch, masking the non-200 response. -/
theorem claim_C4_counterexample :
    get_recent_articles "CNN"
        (.resp 500 (.valid ⟨[], none, some "rate limited", some "rateLimited"⟩))
        (.resp 200 (.valid ⟨[cnnArticle], some "ok", none, none⟩)) =
      ⟨none, [cnnArticle]⟩ := by decide

/-- C4 (amended): whenever the response the function finally uses — the
first response when its body has articles, otherwise the broadened-retry
response — has a non-200 status, `get_recent_articles` reports the NewsAPI
error message built from that body (carrying the upstream message and error
code) and returns the empty list. -/
theorem claim_C4_amended :
    (∀ (s : String) (c : Nat) (d : ApiData) (r : HttpResult),
      (NEWS_SOURCES.map Prod.fst).contains s = true → d.articles ≠ [] → c ≠ 200 →
        get_recent_articles s (.resp c (.valid d)) r =
          ⟨some (.apiError (newsApiErrMsg d)), []⟩) ∧
    ∀ (s : String) (c1 c2 : Nat) (d1 d2 : ApiData),
      (NEWS_SOURCES.map Prod.fst).contains s = true → d1.articles = [] → c2 ≠ 200 →
        get_recent_articles s (.resp c1 (.valid d1)) (.resp c2 (.valid d2)) =
          ⟨some (.apiError (newsApiErrMsg d2)), []⟩ := by
  constructor
  · intro s c d r hs hne hc
    unfold get_recent_articles
    rw [if_neg (not_not_intro hs)]
    simp only
    rw [if_neg (by simp [List.isEmpty_iff, hne])]
    unfold afterResolve
    rw [if_pos hc]
  · intro s c1 c2 d1 d2 hs hd1 hc
    unfold get_recent_articles
    rw [if_neg (not_not_intro hs)]
    simp only
    rw [if_pos (by simp [List.isEmpty_iff, hd1])]
    unfold afterResolve
    rw [if_pos hc]

/-- Witness for the amended C4 theorem at concrete inputs. -/
theorem claim_C4_amended_witness :
    get_recent_articles "CNN"
        (.resp 500 (.valid ⟨[cnnArticle], none, some "boom", some "x"⟩)) .exn =
      ⟨some (.apiError (newsApiErrMsg ⟨[cnnArticle], none, some "boom", some "x"⟩)), []⟩ :=
  claim_C4_amended.1 "CNN" 500 ⟨[cnnArticle], none, some "boom", some "x"⟩ .exn
    (by decide) (by decide) (by decide)

/-- C5: `fetch_full_article` is a total function of the fetch outcome — the
catch-all `except` and the trailing `return None` mean no exception
propagates — and every error path (exception from timeout, network failure
or parse failure, or a non-200 status) yields absent content, so the caller
falls back to title+description text. -/
theorem claim_C5_fetch_error_paths :
    fetch_full_article .exn = none ∧
    ∀ (c : Nat) (page : List Html), c ≠ 200 → fetch_full_article (.resp c page) = none := by
  refine ⟨rfl, fun c page hc => ?_⟩
  simp only [fetch_full_article]
  rw [if_neg hc]

/-- Witness for the C5 theorem at a concrete input: a 404 response. -/
theorem claim_C5_fetch_error_paths_witness :
    fetch_full_article (.resp 404 [Html.elem "p" [Html.text "page not found"]]) = none :=
  claim_C5_fetch_error_paths.2 404 [Html.elem "p" [Html.text "page not found"]] (by decide)

/-- C6 counterexample: on a 200 page whose only paragraph is shorter than 50
characters the function returns the empty string — a present value, not the
absent one. -/
theorem claim_C6_counterexample :
    fetch_full_article (.resp 200 [Html.elem "p" [Html.text "too short"]]) = some "" ∧
    fetch_full_article (.resp 200 [Html.elem "p" [Html.text "too short"]]) ≠ none := by
  decide

/-- C6 (amended): on a 200 page the returned content is exactly the trimmed
texts of the paragraph elements remaining after the banned-tag removal whose
trimmed length exceeds 50 characters, joined with single spaces in document
order; when zero paragraphs survive the filter the result is the empty
string — which the caller treats as missing content — rather than the
absent value. -/
theorem claim_C6_amended :
    ∀ page : List Html,
      fetch_full_article (.resp 200 page) = some (joinSp (paragraphTexts page)) ∧
      (paragraphTexts page = [] → fetch_full_article (.resp 200 page) = some "") := by
  intro page
  have h : fetch_full_article (.resp 200 page) = some (joinSp (paragraphTexts page)) := by
    simp only [fetch_full_article, if_pos rfl]
    rw [filterMap_keepText]
    rfl
  refine ⟨h, fun hz => ?_⟩
  rw [h, hz]
  decide

/-- Witness for the amended C6 theorem at a concrete input with no
surviving paragraph. -/
theorem claim_C6_amended_witness :
    fetch_full_article (.resp 200 [Html.text "just text"]) = some "" :=
  (claim_C6_amended [Html.text "just text"]).2 (by decide)

/-- C7: each generator returns its fixed fallback string whenever its model
call raises, and each result depends only on the model behaviour at its own
prompt, so one failing analysis cannot affect the other two for the same
article. -/
theorem claim_C7_generation_fallback :
    (∀ (model : String → GenOutcome) (c : String),
      model (summaryPrompt c) = .raises →
        generate_article_summary model c = "Could not generate summary due to an error.") ∧
    (∀ (model : String → GenOutcome) (c s : String),
      model (biasPrompt c s) = .raises →
        analyze_bias model c s = "Could not analyze bias due to an error.") ∧
    (∀ (model : String → GenOutcome) (c s : String),
      model (devilsPrompt c s) = .raises →
        generate_devils_advocate model c s =
          "Could not generate devil\x27s advocate analysis due to an error.") ∧
    (∀ (m1 m2 : String → GenOutcome) (c : String),
      m1 (summaryPrompt c) = m2 (summaryPrompt c) →
        generate_article_summary m1 c = generate_article_summary m2 c) ∧
    (∀ (m1 m2 : String → GenOutcome) (c s : String),
      m1 (biasPrompt c s) = m2 (biasPrompt c s) →
        analyze_bias m1 c s = analyze_bias m2 c s) ∧
    ∀ (m1 m2 : String → GenOutcome) (c s : String),
      m1 (devilsPrompt c s) = m2 (devilsPrompt c s) →
        generate_devils_advocate m1 c s = generate_devils_advocate m2 c s := by
  refine ⟨fun model c h => ?_, fun model c s h => ?_, fun model c s h => ?_,
    fun m1 m2 c h => ?_, fun m1 m2 c s h => ?_, fun m1 m2 c s h => ?_⟩
  all_goals
    simp only [generate_article_summary, analyze_bias, generate_devils_advocate, h]

/-- Witness for the C7 theorem: a model whose every call raises yields the
three fallback strings. -/
theorem claim_C7_generation_fallback_witness :
    generate_article_summary (fun _ => .raises) "text" =
      "Could not generate summary due to an error." ∧
    analyze_bias (fun _ => .raises) "text" "CNN" =
      "Could not analyze bias due to an error." ∧
    generate_devils_advocate (fun _ => .raises) "text" "CNN" =
      "Could not generate devil\x27s advocate analysis due to an error." :=
  ⟨claim_C7_generation_fallback.1 (fun _ => .raises) "text" rfl,
   claim_C7_generation_fallback.2.1 (fun _ => .raises) "text" "CNN" rfl,
   claim_C7_generation_fallback.2.2.1 (fun _ => .raises) "text" "CNN" rfl⟩

/-- An article text one character over the 4000-character budget the claim
asserts. -/
def overBudgetText : String := ⟨List.replicate 4001 'z'⟩

/-- C8 counterexample: with an article text of 4001 characters the summary
prompt embeds all 4001 characters — beyond the claimed 4000-character
budget — because the code slices at 8000. -/
theorem claim_C8_counterexample :
    summaryPrompt overBudgetText = summaryPre ++ pySlice 8000 overBudgetText ++ summaryPost ∧
    (pySlice 8000 overBudgetText).length = 4001 ∧
    pySlice 8000 overBudgetText ≠ pySlice 4000 overBudgetText := by
  have hlen : (pySlice 8000 overBudgetText).length = 4001 := by
    show ((List.replicate 4001 'z').take 8000).length = 4001
    rw [List.take_of_length_le (by rw [List.length_replicate]; omega), List.length_replicate]
  refine ⟨rfl, hlen, fun h => ?_⟩
  have h4 : (pySlice 4000 overBudgetText).length = 4000 := by
    show ((List.replicate 4001 'z').take 4000).length = 4000
    rw [List.length_take, List.length_replicate]
    omega
  rw [h, h4] at hlen
  exact absurd hlen (by omega)

/-- C8 (amended): each of the three analysis prompts embeds exactly the
first 8000 characters of the article text (the configured budget is 8000,
not 4000); text beyond the 8000-character budget never reaches the model. -/
theorem claim_C8_amended :
    ∀ text source : String,
      summaryPrompt text = summaryPre ++ pySlice 8000 text ++ summaryPost ∧
      biasPrompt text source = biasPre1 ++ source ++ biasPre2 ++ pySlice 8000 text ++ biasPost ∧
      devilsPrompt text source =
        devilsPre1 ++ source ++ devilsPre2 ++ pySlice 8000 text ++ devilsPost ∧
      (pySlice 8000 text).length ≤ 8000 ∧
      (pySlice 8000 text).data = text.data.take 8000 := by
  intro text source
  refine ⟨rfl, rfl, rfl, ?_, rfl⟩
  show (text.data.take 8000).length ≤ 8000
  rw [List.length_take]
  exact Nat.min_le_left _ _

/-- The same political raw result twice, as used by the C9 artifacts. -/
def dupArticle : Article := ⟨"Trump holds rally", "", "https://cnn.com/a", "2025-01-01"⟩

/-- C9 counterexample: a political raw result appearing twice is selected
twice, so the batch contains two articles with the same URL — the URL is not
a de-duplication key. -/
theorem claim_C9_counterexample :
    select_articles [dupArticle, dupArticle] = [dupArticle, dupArticle] ∧
    ¬ ((select_articles [dupArticle, dupArticle]).map Article.url).Nodup := by decide

/-- C9 (amended): the only de-duplication in the selection is the
whole-record membership test of the fill loop; when the raw results are
pairwise distinct records the batch has no duplicate record, but identical
records — and hence repeated URLs — can appear several times. -/
theorem claim_C9_amended (l : List Article) (h : l.Nodup) : (select_articles l).Nodup :=
  select_articles_nodup_helper l h

/-- Witness for the amended C9 theorem at a concrete input. -/
theorem claim_C9_amended_witness : (select_articles [dupArticle]).Nodup :=
  claim_C9_amended [dupArticle] (by decide)

/-- C10: `get_recent_articles` is total at its boundary — the embedding is a
total function covering unknown sources, network exceptions, undecodable
JSON and any other exception from the request — and on every error path the
returned list is empty. -/
theorem claim_C10_total_empty_on_error :
    (∀ (s : String) (f r : HttpResult),
      (get_recent_articles s f r).error.isSome = true →
        (get_recent_articles s f r).batch = []) ∧
    (∀ (s : String) (f r : HttpResult),
      (NEWS_SOURCES.map Prod.fst).contains s = false →
        get_recent_articles s f r =
          ⟨some (.invalidSource ("Invalid news source: " ++ s)), []⟩) ∧
    (∀ (s : String) (r : HttpResult),
      (NEWS_SOURCES.map Prod.fst).contains s = true →
        get_recent_articles s .exn r = ⟨some .networkError, []⟩) ∧
    (∀ (s : String) (c : Nat) (r : HttpResult),
      (NEWS_SOURCES.map Prod.fst).contains s = true →
        get_recent_articles s (.resp c .invalid) r = ⟨some .parseError, []⟩) ∧
    ∀ (s : String) (r : HttpResult),
      (NEWS_SOURCES.map Prod.fst).contains s = true →
        get_recent_articles s .otherExn r = ⟨some .otherError, []⟩ := by
  refine ⟨fun s f r he => ?_, fun s f r hs => ?_, fun s r hs => ?_, fun s c r hs => ?_,
    fun s r hs => ?_⟩
  · rcases get_recent_articles_shape s f r with ⟨e, h⟩ | ⟨d, h⟩
    · rw [h]
    · rw [h] at he
      simp at he
  · unfold get_recent_articles
    rw [if_pos (by rw [hs]; simp)]
  · unfold get_recent_articles
    rw [if_neg (not_not_intro hs)]
  · unfold get_recent_articles
    rw [if_neg (not_not_intro hs)]
  · unfold get_recent_articles
    rw [if_neg (not_not_intro hs)]

/-- Witness for the C10 theorem at concrete inputs: an unknown source, a
network exception and an undecodable body. -/
theorem claim_C10_total_empty_on_error_witness :
    get_recent_articles "BBC" .exn .exn =
      ⟨some (.invalidSource ("Invalid news source: " ++ "BBC")), []⟩ ∧
    get_recent_articles "CNN" .exn .exn = ⟨some .networkError, []⟩ ∧
    get_recent_articles "CNN" (.resp 200 .invalid) .exn = ⟨some .parseError, []⟩ :=
  ⟨claim_C10_total_empty_on_error.2.1 "BBC" .exn .exn (by decide),
   claim_C10_total_empty_on_error.2.2.1 "CNN" .exn (by decide),
   claim_C10_total_empty_on_error.2.2.2.1 "CNN" 200 .exn (by decide)⟩
